import Mathlib

/-!
Formal model of the JWT banking API demo
(`src/unnamed/part_000` — the Express server with the login, balance,
deposit and withdraw handlers — and `src/middleware/authMiddleware.js`).

The handlers observe JavaScript numbers only through `parseFloat`,
`isNaN`, the comparisons `<=`, `<` and the operations `+=`, `-=`.
We model a JavaScript numeric value as a finite exact rational (every
finite double is a rational) or one of the special values `Infinity`,
`-Infinity`, `NaN`, with the IEEE-754 comparison and addition rules
JavaScript uses.  Finite arithmetic is modelled exactly while the
program's binary64 arithmetic rounds, so theorems whose conclusions
depend on exact finite sums or differences restrict their inputs to
integers below `2 ^ 53`, where binary64 addition and subtraction are
exact; comparison-driven control flow (the validation and
insufficient-funds guards) is unaffected by this abstraction.

The object lookup `userDatabase[username]` walks the prototype chain:
names inherited from `Object.prototype` (such as `"constructor"`) yield
a truthy value without a `balance` field, and the handlers then operate
on an undefined balance, which coerces to `NaN`.  The model carries this
three-way outcome explicitly.

The `jsonwebtoken` library is modelled symbolically: a well-formed token
on the wire is the claims object together with the key its HMAC signature
was computed with; everything else is an unparseable blob.  `jwt.verify`
succeeds exactly when the signing key equals the verification secret and
the `exp` claim (when present) is strictly in the future.
-/

/-- A JavaScript numeric value as the handlers see one: an exact finite
value, one of the two infinities, or `NaN`.  A present request field
`amount` is carried as the value `parseFloat` gives for it (`nan` for
unparseable input; `posInf` for inputs such as the string `"Infinity"`
or the JSON literal `1e999`). -/
inductive JNum where
  | fin (q : ℚ)
  | posInf
  | negInf
  | nan
  deriving DecidableEq

namespace JNum

/-- JavaScript `a < b`: false whenever either side is `NaN`. -/
def jlt : JNum → JNum → Bool
  | nan, _ => false
  | _, nan => false
  | fin a, fin b => decide (a < b)
  | fin _, posInf => true
  | fin _, negInf => false
  | posInf, _ => false
  | negInf, negInf => false
  | negInf, _ => true

/-- JavaScript `a <= b`: false whenever either side is `NaN`. -/
def jle : JNum → JNum → Bool
  | nan, _ => false
  | _, nan => false
  | fin a, fin b => decide (a ≤ b)
  | fin _, posInf => true
  | fin _, negInf => false
  | posInf, posInf => true
  | posInf, _ => false
  | negInf, _ => true

/-- JavaScript `a + b`.  The IEEE rules for the special values are kept
(`Infinity + (-Infinity) = NaN`, infinities absorb); finite + finite is
modelled as exact rational addition, whereas the program's binary64 `+`
rounds its result.  Binary64 is exact on integer operands whose results
stay below `2 ^ 53`, so theorems whose conclusion depends on the exact
value of a finite sum restrict their inputs to that range. -/
def jadd : JNum → JNum → JNum
  | nan, _ => nan
  | _, nan => nan
  | fin a, fin b => fin (a + b)
  | posInf, negInf => nan
  | negInf, posInf => nan
  | posInf, _ => posInf
  | negInf, _ => negInf
  | fin _, posInf => posInf
  | fin _, negInf => negInf

/-- JavaScript unary negation. -/
def jneg : JNum → JNum
  | nan => nan
  | posInf => negInf
  | negInf => posInf
  | fin a => fin (-a)

/-- JavaScript `a - b`, i.e. `a + (-b)` (inheriting `jadd`'s
exact-on-finites abstraction of the rounding binary64 `-`). -/
def jsub (a b : JNum) : JNum := jadd a (jneg b)

/-- JavaScript `isNaN` on an already-numeric value. -/
def isNaNj : JNum → Bool
  | nan => true
  | _ => false

end JNum

open JNum

/-- The constant `VALID_USERNAME` (src/unnamed/part_000, line 33). -/
def VALID_USERNAME : String := "john_doe"

/-- The constant `VALID_PASSWORD` (src/unnamed/part_000, line 34). -/
def VALID_PASSWORD : String := "password123"

/-- The starting balance of the one account of `userDatabase`
(src/unnamed/part_000, lines 36-42). -/
def initialBalance : JNum := .fin 5000

/-- The property names `userDatabase` inherits from `Object.prototype`:
a JavaScript bracket lookup on an object literal walks the prototype
chain, so `userDatabase[k]` for each of these `k` yields a truthy value
(a function, or for `__proto__` the prototype object itself) even though
no account record exists under that name. -/
def protoKeys : List String :=
  ["constructor", "hasOwnProperty", "isPrototypeOf", "propertyIsEnumerable",
   "toLocaleString", "toString", "valueOf", "__defineGetter__",
   "__defineSetter__", "__lookupGetter__", "__lookupSetter__", "__proto__"]

/-- What `userDatabase[username]` can evaluate to:
the own record (keyed `"john_doe"`, carrying the current balance), a
truthy value inherited from `Object.prototype` (which has no `balance`
field — reading `user.balance` on it gives `undefined`, and `undefined`
coerces to `NaN` in arithmetic and comparisons), or `undefined` (the
falsy outcome the handlers answer with 404). -/
inductive DBValue where
  | account (balance : JNum)
  | protoFn
  | absent
  deriving DecidableEq

/-- The lookup `userDatabase[username]`: the database holds exactly one
own record, keyed `"john_doe"`, whose current balance is the mutable
state `st`; any name inherited from `Object.prototype` still produces a
truthy value via the prototype chain; every other name (also a missing
`username` claim, since `userDatabase[undefined]` reads the absent
property `"undefined"`) is `undefined`. -/
def userLookup (st : JNum) (username : Option String) : DBValue :=
  match username with
  | none => .absent
  | some u =>
    if u = VALID_USERNAME then .account st
    else if u ∈ protoKeys then .protoFn
    else .absent

/-- The outcome a ledger mutation handler sends, tagged as in the JSON
error bodies of src/unnamed/part_000. -/
inductive TxnResult where
  | notFound
  | amountRequired
  | invalidAmount
  | nonPositiveAmount
  | insufficientFunds (currentBalance : JNum)
  | ok (newBalance : JNum)
  deriving DecidableEq

/-- The `POST /deposit` handler (src/unnamed/part_000, lines 166-212):
look up the user — `if (!user)` gives 404 only when the lookup is falsy
(`undefined`) — then require `amount` to be present, reject `NaN`
(`parseFloat` failure), reject `amount <= 0`, and otherwise apply
`user.balance += numAmount`.  For a prototype-inherited lookup the same
lines run with `user.balance` undefined: the addition yields `NaN`
(written onto the inherited object, not the account), and the 200
response reports that `NaN` balance while the account's state is
untouched.  Returns the response together with the account balance
after the call. -/
def deposit (st : JNum) (username : Option String) (amount : Option JNum) :
    TxnResult × JNum :=
  match userLookup st username with
  | .absent => (.notFound, st)
  | .account bal =>
    match amount with
    | none => (.amountRequired, st)
    | some a =>
      if isNaNj a then (.invalidAmount, st)
      else if jle a (.fin 0) then (.nonPositiveAmount, st)
      else (.ok (jadd bal a), jadd bal a)
  | .protoFn =>
    match amount with
    | none => (.amountRequired, st)
    | some a =>
      if isNaNj a then (.invalidAmount, st)
      else if jle a (.fin 0) then (.nonPositiveAmount, st)
      else (.ok (jadd .nan a), st)

/-- The `POST /withdraw` handler (src/unnamed/part_000, lines 233-287):
the same lookup and amount validation as `deposit`, then the balance
check `user.balance < numAmount` (fail `Insufficient balance` reporting
`currentBalance`), and otherwise `user.balance -= numAmount`.  For a
prototype-inherited lookup `user.balance` is undefined, so the check
compares `NaN < numAmount` (always false) and the subtraction leaves
`NaN` in the 200 response, the account's state untouched. -/
def withdraw (st : JNum) (username : Option String) (amount : Option JNum) :
    TxnResult × JNum :=
  match userLookup st username with
  | .absent => (.notFound, st)
  | .account bal =>
    match amount with
    | none => (.amountRequired, st)
    | some a =>
      if isNaNj a then (.invalidAmount, st)
      else if jle a (.fin 0) then (.nonPositiveAmount, st)
      else if jlt bal a then (.insufficientFunds bal, st)
      else (.ok (jsub bal a), jsub bal a)
  | .protoFn =>
    match amount with
    | none => (.amountRequired, st)
    | some a =>
      if isNaNj a then (.invalidAmount, st)
      else if jle a (.fin 0) then (.nonPositiveAmount, st)
      else if jlt .nan a then (.insufficientFunds .nan, st)
      else (.ok (jsub .nan a), st)

/-- The balance after a sequence of `POST /withdraw` calls for the known
user, each carrying the given (possibly absent) amount. -/
def runWithdraws (st : JNum) (amts : List (Option JNum)) : JNum :=
  amts.foldl (fun s a => (withdraw s (some VALID_USERNAME) a).2) st

/-- The space character, code point 32 (the separator of
`authHeader.split` in the middleware). -/
def spaceChar : Char := Char.ofNat 32

/-- Helper for `splitSpaces`: the segments of the remaining characters,
with `acc` the (reversed) characters of the segment being read. -/
def splitSpacesAux : List Char → List Char → List String
  | [], acc => [String.mk acc.reverse]
  | c :: rest, acc =>
    if c = spaceChar then String.mk acc.reverse :: splitSpacesAux rest []
    else splitSpacesAux rest (c :: acc)

/-- JavaScript `s.split(' ')`: split at every single space, keeping empty
segments (so `"a  b"` gives three segments and `"a "` gives two). -/
def splitSpaces (s : String) : List String := splitSpacesAux s.data []

/-- The error taxonomy of the authentication middleware
(src/middleware/authMiddleware.js), tagged by its 401 bodies. -/
inductive AuthError where
  | noToken
  | malformedHeader
  | invalidToken
  | tokenExpired (expiredAt : Nat)
  deriving DecidableEq

/-- Steps 1-2 of `authMiddleware` (src/middleware/authMiddleware.js,
lines 32-53): `if (!authHeader)` — the header absent or the empty string
(both falsy) — gives `No token provided`; then the header must split on
`' '` into exactly two parts with the first literally `"Bearer"`, any
other shape giving `Invalid token format`; on success the second part is
the token string handed to verification. -/
def extractToken (header : Option String) : Except AuthError String :=
  match header with
  | none => .error .noToken
  | some h =>
    if h = "" then .error .noToken
    else
      match splitSpaces h with
      | [scheme, tok] =>
        if scheme = "Bearer" then .ok tok else .error .malformedHeader
      | _ => .error .malformedHeader

/-- The claims object of a token: the `username` put there by the login
handler (absent when the token was minted without one) and the `exp`
timestamp in seconds that `expiresIn` adds (absent for a token signed
without expiry). -/
structure Claims where
  username : Option String
  exp : Option Nat
  deriving DecidableEq

/-- A token string on the wire, symbolically: either a well-formed JWT
whose HMAC signature was computed with `key` over exactly `claims`, or a
blob that does not decode as a JWT at all. -/
inductive TokenWire where
  | signed (claims : Claims) (key : String)
  | garbage
  deriving DecidableEq

/-- What `jwt.verify(token, secret)` can produce at clock time `now`
(seconds): the decoded claims, `TokenExpiredError` carrying the token's
own `exp` as `expiredAt`, or `JsonWebTokenError` (bad signature or
undecodable token). -/
inductive VerifyResult where
  | ok (claims : Claims)
  | expired (expiredAt : Nat)
  | invalid
  deriving DecidableEq

/-- The call `jwt.verify(token, secret)` at clock time `now`: an undecodable token
or a signature made with a different key fails as `JsonWebTokenError`;
with the signature good, an `exp` claim with `now >= exp` fails as
`TokenExpiredError` carrying that `exp`; otherwise the claims are
returned.  (Signature is checked before expiry, as `jsonwebtoken` does.) -/
def verifyJwt (tok : TokenWire) (secret : String) (now : Nat) : VerifyResult :=
  match tok with
  | .garbage => .invalid
  | .signed c key =>
    if key = secret then
      match c.exp with
      | some t => if now < t then .ok c else .expired t
      | none => .ok c
    else .invalid

/-- Step 3 of `authMiddleware` (src/middleware/authMiddleware.js, lines
56-79): run `jwt.verify` and map `TokenExpiredError` to the `Token
expired` response (carrying `expiredAt`) and `JsonWebTokenError` to the
`Invalid token` response; on success the decoded claims become
`req.user`. -/
def gateVerify (tok : TokenWire) (secret : String) (now : Nat) :
    Except AuthError Claims :=
  match verifyJwt tok secret now with
  | .ok c => .ok c
  | .expired t => .error (.tokenExpired t)
  | .invalid => .error .invalidToken

/-- The whole middleware on a raw `Authorization` header value, with
`decode` the (library-side) reading of a token string into its symbolic
wire form. -/
def authenticate (header : Option String) (decode : String → TokenWire)
    (secret : String) (now : Nat) : Except AuthError Claims :=
  match extractToken header with
  | .error e => .error e
  | .ok tokStr => gateVerify (decode tokStr) secret now

/-- The call `jwt.sign` on claims holding the username, with `expiresIn`,
as the login handler
calls it at clock time `now`: claims carrying the username and the
expiry `now + lifetime`, signed with `secret`. -/
def issueToken (username : String) (secret : String) (now lifetime : Nat) :
    TokenWire :=
  .signed ⟨some username, some (now + lifetime)⟩ secret

/-- The outcome of the `POST /login` handler, tagged by its JSON bodies
(src/unnamed/part_000, lines 74-109). -/
inductive LoginResult where
  | missingFields
  | invalidCredentials
  | success (tok : TokenWire)
  deriving DecidableEq

/-- The `POST /login` handler: `if (!username || !password)` — either
field absent or the empty string — gives `Username and password are
required`; any pair other than the hardcoded credentials gives the one
`Invalid credentials` response; on match a token is signed over
the username alone with expiry `now + lifetime`. -/
def login (username password : Option String) (secret : String)
    (now lifetime : Nat) : LoginResult :=
  match username, password with
  | some u, some p =>
    if u = "" ∨ p = "" then .missingFields
    else if u = VALID_USERNAME ∧ p = VALID_PASSWORD then
      .success (issueToken u secret now lifetime)
    else .invalidCredentials
  | _, _ => .missingFields

/-- A response of the protected `GET /balance` route, as the client can
tell them apart.  The 200 body's `balance` field is `none` when
`user.balance` is `undefined` (a prototype-inherited lookup, whose
record has no such field). -/
inductive BalanceResponse where
  | ok (username : String) (balance : Option JNum)
  | authError (e : AuthError)
  | notFound
  deriving DecidableEq

/-- The `GET /balance` handler body (src/unnamed/part_000, lines
124-145): look `req.user.username` up in `userDatabase`; a falsy lookup
(also when the claim is absent, since `userDatabase[undefined]` is
`undefined`) gives `User not found` (404); a prototype-inherited truthy
lookup responds 200 with an undefined balance; the own record responds
200 with the username and balance. -/
def getBalance (st : JNum) (username : Option String) : BalanceResponse :=
  match username with
  | none => .notFound
  | some u =>
    match userLookup st (some u) with
    | .absent => .notFound
    | .account bal => .ok u (some bal)
    | .protoFn => .ok u none

/-- The protected `GET /balance` route from the token on: the middleware
verification step followed, only on success, by the handler body reading
the `username` claim of `req.user`. -/
def protectedBalance (st : JNum) (tok : TokenWire) (secret : String)
    (now : Nat) : BalanceResponse :=
  match gateVerify tok secret now with
  | .error e => .authError e
  | .ok c => getBalance st c.username

/-- C2: a token issued at `now0` with lifetime `lifetime` (expiry
`t = now0 + lifetime`) is accepted by the gate's verification step at
every clock time strictly before `t` — returning the claims that carry
the identity — and rejected at every clock time at or after `t` with
`tokenExpired` carrying the original expiry `t`. -/
theorem C2_expiry_boundary (u secret : String) (now0 lifetime now : Nat) :
    gateVerify (issueToken u secret now0 lifetime) secret now =
      if now < now0 + lifetime then .ok ⟨some u, some (now0 + lifetime)⟩
      else .error (.tokenExpired (now0 + lifetime)) := by
  by_cases h : now < now0 + lifetime <;>
    simp [gateVerify, verifyJwt, issueToken, h]

/-- C3: a token whose signature was made with a key different from the
gate's configured secret is rejected as `invalidToken`, whatever claims
it carries and whatever the clock says. -/
theorem C3_wrong_secret_rejected (c : Claims) (key secret : String)
    (now : Nat) (h : key ≠ secret) :
    gateVerify (.signed c key) secret now = .error .invalidToken := by
  simp [gateVerify, verifyJwt, h]

theorem C3_wrong_secret_rejected_witness :
    gateVerify (.signed ⟨some "john_doe", some 100⟩ "other-secret")
        "your-secret-key-change-this-in-production" 0 =
      .error .invalidToken :=
  C3_wrong_secret_rejected ⟨some "john_doe", some 100⟩ "other-secret"
    "your-secret-key-change-this-in-production" 0 (by decide)

/-- C9: a token that verifies against the shared secret and is not
expired but whose claims carry no `username` passes the gate, and the
balance handler then answers `User not found` (404) — not any
authentication error. -/
theorem C9_identityless_token_404 (st : JNum) (tok : TokenWire)
    (c : Claims) (secret : String) (now : Nat)
    (hv : verifyJwt tok secret now = .ok c) (hid : c.username = none) :
    protectedBalance st tok secret now = .notFound ∧
    ∀ e : AuthError, protectedBalance st tok secret now ≠ .authError e := by
  have hmain : protectedBalance st tok secret now = .notFound := by
    simp [protectedBalance, gateVerify, hv, getBalance, hid]
  exact ⟨hmain, fun e h => by rw [hmain] at h; cases h⟩

theorem C9_identityless_token_404_witness :
    protectedBalance (.fin 5000) (.signed ⟨none, some 100⟩ "k") "k" 0 =
        .notFound ∧
    ∀ e : AuthError,
      protectedBalance (.fin 5000) (.signed ⟨none, some 100⟩ "k") "k" 0 ≠
        .authError e :=
  C9_identityless_token_404 (.fin 5000) (.signed ⟨none, some 100⟩ "k")
    ⟨none, some 100⟩ "k" 0 rfl rfl

/-- C10 counterexample: the identity `"constructor"` has no account in
the ledger, yet `userDatabase["constructor"]` is the inherited `Object`
constructor — truthy — so `if (!user)` does not fire: a deposit with an
absent amount proceeds to validation and is answered
`Amount is required` (400), not `User not found` (404); and a withdraw
of 100 even reports success with a `NaN` balance (the guard compares
undefined with 100, which is false). -/
theorem C10_proto_key_not_404_cex :
    deposit (.fin 5000) (some "constructor") none =
      (.amountRequired, .fin 5000) ∧
    withdraw (.fin 5000) (some "constructor") (some (.fin 100)) =
      (.ok .nan, .fin 5000) ∧
    (TxnResult.amountRequired ≠ .notFound) ∧
    (TxnResult.ok .nan ≠ .notFound) := by
  refine ⟨rfl, ?_, by decide, by decide⟩
  simp [withdraw, userLookup, protoKeys, VALID_USERNAME, jle, jlt, isNaNj,
    jsub, jadd, jneg]

/-- C10 (amended): in both mutation handlers the truthiness check on
`userDatabase[username]` comes before amount validation.  When that
lookup is `undefined` — the verified identity is neither `"john_doe"`
nor a property name inherited from `Object.prototype` — the answer is
`User not found` (404) and the balance is untouched, whatever the
`amount` field holds (absent, `NaN`, non-positive or valid alike).  For
an inherited name the lookup is truthy, so the handler instead runs
amount validation (400 on an absent amount) and, on a valid positive
amount, reports success with a `NaN` balance, the account unchanged. -/
theorem C10_existence_check_amended (st : JNum) (u : Option String)
    (amount : Option JNum) (h : userLookup st u = .absent) :
    (deposit st u amount = (.notFound, st) ∧
     withdraw st u amount = (.notFound, st)) ∧
    (∀ k, k ∈ protoKeys →
      (deposit st (some k) none = (.amountRequired, st) ∧
       withdraw st (some k) none = (.amountRequired, st)) ∧
      (∀ a : JNum, isNaNj a = false → jlt (.fin 0) a = true →
        deposit st (some k) (some a) = (.ok .nan, st) ∧
        withdraw st (some k) (some a) = (.ok .nan, st))) := by
  have hkey : ∀ k, k ∈ protoKeys → userLookup st (some k) = .protoFn :=
    by intro k hk; fin_cases hk <;> rfl
  constructor
  · constructor
    · simp [deposit, h]
    · simp [withdraw, h]
  · intro k hk
    constructor
    · constructor
      · simp [deposit, hkey k hk]
      · simp [withdraw, hkey k hk]
    · intro a h1 h2
      have hle : jle a (.fin 0) = false := by
        cases a with
        | fin q =>
          simp only [jlt, decide_eq_true_eq] at h2
          simp only [jle, decide_eq_false_iff_not]
          linarith
        | posInf => rfl
        | negInf => simp [jlt] at h2
        | nan => simp [isNaNj] at h1
      constructor
      · simp [deposit, hkey k hk, h1, hle, jadd]
      · simp [withdraw, hkey k hk, h1, hle, jlt, jsub, jadd, jneg]

theorem C10_existence_check_amended_witness :
    (deposit (.fin 5000) (some "alice") (some .nan) =
        (.notFound, .fin 5000) ∧
     withdraw (.fin 5000) (some "alice") (some .nan) =
        (.notFound, .fin 5000)) ∧
    (∀ k, k ∈ protoKeys →
      (deposit (.fin 5000) (some k) none = (.amountRequired, .fin 5000) ∧
       withdraw (.fin 5000) (some k) none =
         (.amountRequired, .fin 5000)) ∧
      (∀ a : JNum, isNaNj a = false → jlt (.fin 0) a = true →
        deposit (.fin 5000) (some k) (some a) = (.ok .nan, .fin 5000) ∧
        withdraw (.fin 5000) (some k) (some a) =
          (.ok .nan, .fin 5000))) :=
  C10_existence_check_amended (.fin 5000) (some "alice") (some .nan)
    (by decide)

/-- C7: login with either field absent or the empty string fails as
`missingFields`; every present, non-empty pair other than the known
principal's exact credentials fails with the one `invalidCredentials`
response, so an unknown identity and a known identity with a wrong
secret are indistinguishable. -/
theorem C7_login_undifferentiated (u p secret : String) (now lifetime : Nat)
    (hu : u ≠ "") (hp : p ≠ "")
    (hmm : ¬(u = VALID_USERNAME ∧ p = VALID_PASSWORD)) :
    login (some u) (some p) secret now lifetime = .invalidCredentials ∧
    (∀ q : Option String, login none q secret now lifetime = .missingFields) ∧
    (∀ q : Option String, login q none secret now lifetime = .missingFields) ∧
    (∀ q : String, login (some "") (some q) secret now lifetime =
      .missingFields) ∧
    (∀ q : String, q ≠ "" → login (some q) (some "") secret now lifetime =
      .missingFields) ∧
    (∀ u2 p2 : String, u2 ≠ "" → p2 ≠ "" →
      ¬(u2 = VALID_USERNAME ∧ p2 = VALID_PASSWORD) →
      login (some u) (some p) secret now lifetime =
        login (some u2) (some p2) secret now lifetime) := by
  refine ⟨?_, ?_, ?_, ?_, ?_, ?_⟩
  · simp [login, hu, hp, hmm]
  · intro q; cases q <;> rfl
  · intro q; cases q <;> rfl
  · intro q; simp [login]
  · intro q hq; simp [login, hq]
  · intro u2 p2 hu2 hp2 hmm2
    simp [login, hu, hp, hmm, hu2, hp2, hmm2]

theorem C7_login_undifferentiated_witness :
    login (some "alice") (some "password123")
        "your-secret-key-change-this-in-production" 0 86400 =
      .invalidCredentials ∧
    (∀ q : Option String, login none q
        "your-secret-key-change-this-in-production" 0 86400 =
      .missingFields) ∧
    (∀ q : Option String, login q none
        "your-secret-key-change-this-in-production" 0 86400 =
      .missingFields) ∧
    (∀ q : String, login (some "") (some q)
        "your-secret-key-change-this-in-production" 0 86400 =
      .missingFields) ∧
    (∀ q : String, q ≠ "" → login (some q) (some "")
        "your-secret-key-change-this-in-production" 0 86400 =
      .missingFields) ∧
    (∀ u2 p2 : String, u2 ≠ "" → p2 ≠ "" →
      ¬(u2 = VALID_USERNAME ∧ p2 = VALID_PASSWORD) →
      login (some "alice") (some "password123")
          "your-secret-key-change-this-in-production" 0 86400 =
        login (some u2) (some p2)
          "your-secret-key-change-this-in-production" 0 86400) :=
  C7_login_undifferentiated "alice" "password123"
    "your-secret-key-change-this-in-production" 0 86400
    (by decide) (by decide) (by decide)

/-- C8: an authenticated deposit with a present, non-`NaN`, strictly
positive amount succeeds, the new balance is the old balance plus the
amount and is what the handler returns; concretely, from the initial
balance 5000 a deposit of 1000 answers balance 6000 and a following
withdrawal of 500 answers balance 5500. -/
theorem C8_credit_adds (st : JNum) (a : JNum)
    (h1 : isNaNj a = false) (h2 : jlt (.fin 0) a = true) :
    deposit st (some VALID_USERNAME) (some a) =
      (.ok (jadd st a), jadd st a) ∧
    deposit (.fin 5000) (some VALID_USERNAME) (some (.fin 1000)) =
      (.ok (.fin 6000), .fin 6000) ∧
    withdraw (.fin 6000) (some VALID_USERNAME) (some (.fin 500)) =
      (.ok (.fin 5500), .fin 5500) := by
  refine ⟨?_, ?_, ?_⟩
  · have hle : jle a (.fin 0) = false := by
      cases a with
      | fin q =>
        simp only [jlt, decide_eq_true_eq] at h2
        simp only [jle, decide_eq_false_iff_not]
        linarith
      | posInf => rfl
      | negInf => simp [jlt] at h2
      | nan => simp [isNaNj] at h1
    simp [deposit, userLookup, h1, hle]
  · simp [deposit, userLookup, jle, isNaNj, jadd]
    norm_num
  · simp [withdraw, userLookup, jle, jlt, isNaNj, jsub, jadd, jneg]
    norm_num

theorem C8_credit_adds_witness :
    deposit (.fin 5000) (some VALID_USERNAME) (some (.fin 1000)) =
      (.ok (jadd (.fin 5000) (.fin 1000)), jadd (.fin 5000) (.fin 1000)) ∧
    deposit (.fin 5000) (some VALID_USERNAME) (some (.fin 1000)) =
      (.ok (.fin 6000), .fin 6000) ∧
    withdraw (.fin 6000) (some VALID_USERNAME) (some (.fin 500)) =
      (.ok (.fin 5500), .fin 5500) :=
  C8_credit_adds (.fin 5000) (.fin 1000) rfl (by norm_num [JNum.jlt])

/-- C4 counterexample: the request amount `"Infinity"` (or the JSON
literal `1e999`) parses to `Infinity`, which is not a finite number, yet
the deposit handler does not fail with `InvalidAmount` — its only parse
check is `isNaN` — and instead applies the deposit. -/
theorem C4_infinite_amount_accepted_cex :
    deposit (.fin 5000) (some VALID_USERNAME) (some .posInf) =
      (.ok .posInf, .posInf) ∧
    (TxnResult.ok .posInf ≠ .invalidAmount) := by
  refine ⟨?_, by decide⟩
  simp [deposit, userLookup, jle, isNaNj, jadd]

/-- C4 (amended): for an authenticated credit or debit, an absent amount
fails as `Amount is required`; an amount whose `parseFloat` is `NaN`
fails as `invalidAmount`; a parsed amount (finite or infinite) that is
`<= 0` fails as `nonPositiveAmount`; and every one of these failures
leaves the balance unchanged.  (An infinite positive amount passes the
validation, since the code tests `isNaN` only — "finite" is not
checked.) -/
theorem C4_amount_validation_amended (st : JNum) (a : JNum) :
    (deposit st (some VALID_USERNAME) none = (.amountRequired, st) ∧
     withdraw st (some VALID_USERNAME) none = (.amountRequired, st)) ∧
    (deposit st (some VALID_USERNAME) (some .nan) = (.invalidAmount, st) ∧
     withdraw st (some VALID_USERNAME) (some .nan) = (.invalidAmount, st)) ∧
    (isNaNj a = false → jle a (.fin 0) = true →
      deposit st (some VALID_USERNAME) (some a) = (.nonPositiveAmount, st) ∧
      withdraw st (some VALID_USERNAME) (some a) = (.nonPositiveAmount, st))
    := by
  refine ⟨⟨?_, ?_⟩, ⟨?_, ?_⟩, ?_⟩
  · simp [deposit, userLookup]
  · simp [withdraw, userLookup]
  · simp [deposit, userLookup, isNaNj]
  · simp [withdraw, userLookup, isNaNj]
  · intro h1 h2
    constructor
    · simp [deposit, userLookup, h1, h2]
    · simp [withdraw, userLookup, h1, h2]

/-- C5 counterexample: with prior balance 5000 and amount `Infinity`
(strictly greater than zero for JavaScript's `<=`), the credit succeeds
leaving balance `Infinity`, the debit of the same amount also succeeds —
`Infinity < Infinity` is false, so the insufficient-funds guard passes —
and the final balance is `Infinity - Infinity = NaN`, not the prior
5000: the round-trip fails. -/
theorem C5_roundtrip_infinite_cex :
    jlt (.fin 0) .posInf = true ∧
    deposit (.fin 5000) (some VALID_USERNAME) (some .posInf) =
      (.ok .posInf, .posInf) ∧
    withdraw .posInf (some VALID_USERNAME) (some .posInf) =
      (.ok .nan, .nan) ∧
    (JNum.nan ≠ .fin 5000) := by
  refine ⟨rfl, ?_, ?_, by decide⟩
  · simp [deposit, userLookup, jle, isNaNj, jadd]
  · simp [withdraw, userLookup, jle, jlt, isNaNj, jsub, jadd, jneg]

/-- C5 (amended): for every non-negative integer balance `n` and every
strictly positive integer amount `m` with `n + m < 2 ^ 53` — the range
in which the program's binary64 addition and subtraction are exact, so
the model's exact arithmetic coincides with the program's — the credit
of `m` succeeds leaving balance `n + m`, and the debit of the same `m`
then succeeds and returns the balance to its prior value `n`.  (The
restriction to finite amounts is forced by the `Infinity`
counterexample; the restriction to exactly-representable integer
arithmetic is forced by binary64 rounding, under which e.g. a credit
and debit of 0.2 on balance 0.1 both succeed yet leave
0.10000000000000003.) -/
theorem C5_roundtrip_integer_amended (n m : ℕ) (hm : 0 < m)
    (_hrange : n + m < 2 ^ 53) :
    deposit (.fin (n : ℚ)) (some VALID_USERNAME) (some (.fin (m : ℚ))) =
      (.ok (.fin ((n : ℚ) + (m : ℚ))), .fin ((n : ℚ) + (m : ℚ))) ∧
    withdraw (.fin ((n : ℚ) + (m : ℚ))) (some VALID_USERNAME)
        (some (.fin (m : ℚ))) =
      (.ok (.fin (n : ℚ)), .fin (n : ℚ)) := by
  have hm' : (0 : ℚ) < (m : ℚ) := by exact_mod_cast hm
  have hn' : (0 : ℚ) ≤ (n : ℚ) := by positivity
  have hle : jle (JNum.fin (m : ℚ)) (.fin 0) = false := by
    simp only [jle, decide_eq_false_iff_not]
    linarith
  have hlt : jlt (JNum.fin ((n : ℚ) + (m : ℚ))) (.fin (m : ℚ)) = false := by
    simp only [jlt, decide_eq_false_iff_not]
    linarith
  constructor
  · simp [deposit, userLookup, isNaNj, hle, jadd]
  · simp [withdraw, userLookup, isNaNj, hle, hlt, jsub, jadd, jneg]

theorem C5_roundtrip_integer_amended_witness :
    deposit (.fin ((5000 : ℕ) : ℚ)) (some VALID_USERNAME)
        (some (.fin ((1000 : ℕ) : ℚ))) =
      (.ok (.fin (((5000 : ℕ) : ℚ) + ((1000 : ℕ) : ℚ))),
        .fin (((5000 : ℕ) : ℚ) + ((1000 : ℕ) : ℚ))) ∧
    withdraw (.fin (((5000 : ℕ) : ℚ) + ((1000 : ℕ) : ℚ)))
        (some VALID_USERNAME) (some (.fin ((1000 : ℕ) : ℚ))) =
      (.ok (.fin ((5000 : ℕ) : ℚ)), .fin ((5000 : ℕ) : ℚ)) :=
  C5_roundtrip_integer_amended 5000 1000 (by decide) (by decide)

/-- C6 counterexample: a present but empty `Authorization` header — a
present header that does not split into two segments with scheme
`"Bearer"` — is answered `noToken` (the middleware's falsy test
`if (!authHeader)` also catches the empty string), not `malformedHeader`
as the claimed check order would require for every present header of the
wrong shape. -/
theorem C6_empty_header_cex :
    extractToken (some "") = .error .noToken ∧
    extractToken (some "") ≠ .error .malformedHeader := by
  refine ⟨rfl, ?_⟩
  intro h
  rw [show extractToken (some "") = .error .noToken from rfl] at h
  cases h

/-- C6 (amended): an absent header — or an empty one, which the falsy
test treats the same — is answered `noToken`; any other header that does
not split on spaces into exactly two segments with the first literally
`"Bearer"` is answered `malformedHeader`; and a header splitting as
`["Bearer", tok]` proceeds to verification with token `tok`. -/
theorem C6_header_shape_amended (header : Option String) :
    (header = none → extractToken header = .error .noToken) ∧
    (header = some "" → extractToken header = .error .noToken) ∧
    (∀ h : String, header = some h → h ≠ "" →
      (splitSpaces h).length ≠ 2 ∨ (splitSpaces h).head? ≠ some "Bearer" →
      extractToken header = .error .malformedHeader) ∧
    (∀ h tok : String, header = some h → splitSpaces h = ["Bearer", tok] →
      extractToken header = .ok tok) := by
  refine ⟨?_, ?_, ?_, ?_⟩
  · intro hh; subst hh; rfl
  · intro hh; subst hh; rfl
  · intro h hh hne hbad
    subst hh
    simp only [extractToken, if_neg hne]
    split
    · rename_i scheme tok heq
      rcases hbad with hb | hb
      · rw [heq] at hb
        simp at hb
      · rw [heq] at hb
        simp only [List.head?] at hb
        split
        · rename_i hsch
          exact absurd (congrArg Option.some hsch) hb
        · rfl
    · rfl
  · intro h tok hh heq
    subst hh
    have hne : h ≠ "" := by
      intro h0
      subst h0
      rw [show splitSpaces "" = [""] from rfl] at heq
      simp at heq
    simp only [extractToken, if_neg hne, heq]
    rfl

/-- One `POST /withdraw` call on a non-negative finite balance leaves a
non-negative finite balance, whatever the request's amount field holds. -/
lemma withdraw_step_nonneg (q : ℚ) (hq : 0 ≤ q) (a : Option JNum) :
    ∃ r : ℚ, 0 ≤ r ∧
      (withdraw (.fin q) (some VALID_USERNAME) a).2 = .fin r := by
  rcases a with _ | x
  · exact ⟨q, hq, rfl⟩
  cases x with
  | nan => exact ⟨q, hq, by simp [withdraw, userLookup, isNaNj]⟩
  | negInf => exact ⟨q, hq, by simp [withdraw, userLookup, isNaNj, jle]⟩
  | posInf =>
    exact ⟨q, hq, by simp [withdraw, userLookup, isNaNj, jle, jlt]⟩
  | fin v =>
    by_cases h1 : v ≤ 0
    · exact ⟨q, hq, by simp [withdraw, userLookup, isNaNj, jle, h1]⟩
    · by_cases h2 : q < v
      · exact ⟨q, hq,
          by simp [withdraw, userLookup, isNaNj, jle, jlt, h1, h2]⟩
      · refine ⟨q - v, by linarith, ?_⟩
        simp [withdraw, userLookup, isNaNj, jle, jlt, h1, h2, jsub, jadd,
          jneg]
        ring_nf

/-- The balance stays a non-negative finite value along every sequence of
withdraw calls started from one. -/
lemma runWithdraws_nonneg (amts : List (Option JNum)) :
    ∀ q : ℚ, 0 ≤ q →
      ∃ r : ℚ, 0 ≤ r ∧ runWithdraws (.fin q) amts = .fin r := by
  induction amts with
  | nil => exact fun q hq => ⟨q, hq, rfl⟩
  | cons a rest ih =>
    intro q hq
    obtain ⟨r, hr, hstep⟩ := withdraw_step_nonneg q hq a
    have hrun : runWithdraws (.fin q) (a :: rest) =
        runWithdraws ((withdraw (.fin q) (some VALID_USERNAME) a).2) rest :=
      rfl
    rw [hrun, hstep]
    exact ih r hr

/-- C1: from a non-negative balance, a withdraw whose amount exceeds the
balance fails as `Insufficient balance` reporting the current balance
and leaving it unchanged; and along every sequence of withdraw calls the
balance stays a non-negative (finite) value — it never becomes
negative. -/
theorem C1_debit_never_negative (q : ℚ) (a : JNum)
    (amts : List (Option JNum)) (hq : 0 ≤ q) :
    (jlt (.fin q) a = true →
      withdraw (.fin q) (some VALID_USERNAME) (some a) =
        (.insufficientFunds (.fin q), .fin q)) ∧
    (∃ r : ℚ, 0 ≤ r ∧ runWithdraws (.fin q) amts = .fin r) := by
  constructor
  · intro hlt
    cases a with
    | nan => simp [jlt] at hlt
    | negInf => simp [jlt] at hlt
    | posInf => simp [withdraw, userLookup, isNaNj, jle, jlt]
    | fin v =>
      simp only [jlt, decide_eq_true_eq] at hlt
      have h1 : ¬ v ≤ 0 := by linarith
      simp [withdraw, userLookup, isNaNj, jle, jlt, h1, hlt]
  · exact runWithdraws_nonneg amts q hq

theorem C1_debit_never_negative_witness :
    (jlt (.fin 5500) (.fin 50000) = true →
      withdraw (.fin 5500) (some VALID_USERNAME) (some (.fin 50000)) =
        (.insufficientFunds (.fin 5500), .fin 5500)) ∧
    (∃ r : ℚ, 0 ≤ r ∧
      runWithdraws (.fin 5500) [some (.fin 50000)] = .fin r) :=
  C1_debit_never_negative 5500 (.fin 50000) [some (.fin 50000)]
    (by norm_num)
